import Mathlib

/-!
Verification of the package-oversized evaluator in `src/function_app.py`
(`check_package_oversized`).

Shallow embedding conventions:
- Parsed JSON values are modelled by `JVal`; JSON numbers (Python int and
  float after `json.loads`) are carried as exact rationals `ℚ`.  Python
  floats are thereby idealised as exact rational arithmetic; the IEEE
  specials ("inf", "nan") and the int/float subtype distinction are
  outside the embedding (no property below depends on them).
- The `context` argument of the function is the outcome of `json.loads`:
  `Except.error s` stands for a raw string `s` on which `json.loads`
  raised `JSONDecodeError`; `Except.ok v` is the parsed value.
- Python `x.get(key, default)` on a non-dict raises `AttributeError`;
  this is `pyGet`, returning `Except PyExn JVal`.
- `float(x)` is `pyFloat?`: `none` stands for the `ValueError`/`TypeError`
  that the source catches in one clause.  `float` of a bool succeeds in
  Python (bool is an int subtype).  String coercion `pyFloatOfString?`
  implements the plain decimal grammar (optional surrounding whitespace,
  sign, digits with optional fraction and exponent).
- The reason strings built by f-string interpolation are carried
  structurally by `Reason`, each constructor holding the interpolated
  number; `Reason.meetsReq` is the literal default message.  Error
  message strings are produced exactly by `ErrMsg.render`.
- `logging.info` / `logging.error` side effects are modelled by
  threading an explicit event list through
  `check_package_oversized_run`; the pure `check_package_oversized`
  projects the returned value.
-/

namespace PackageCheck

/-- A parsed JSON value, as produced by `json.loads`. -/
inductive JVal where
  | null
  | bool (b : Bool)
  | num (q : ℚ)
  | str (s : String)
  | arr (elems : List JVal)
  | obj (fields : List (String × JVal))

/-- The Python type name of a value, as it appears in `AttributeError`
messages.  JSON integers and floats are collapsed to `ℚ`, so `num`
reports "float"; no claim depends on the int/float subtype name. -/
def JVal.typeName : JVal → String
  | .null => "NoneType"
  | .bool _ => "bool"
  | .num _ => "float"
  | .str _ => "str"
  | .arr _ => "list"
  | .obj _ => "dict"

/-- Whether a value is a JSON object (a Python dict). -/
def JVal.isObj : JVal → Bool
  | .obj _ => true
  | _ => false

/-- First-match lookup in a parsed JSON object.  Objects coming out of
`json.loads` have unique keys, so first-match agrees with Python dict
lookup. -/
def jlookup : List (String × JVal) → String → Option JVal
  | [], _ => none
  | (k, v) :: rest, key => if k = key then some v else jlookup rest key

/-- A Python exception raised during evaluation (only `AttributeError`
from calling `.get` on a non-dict can occur in this function). -/
inductive PyExn where
  | attributeError (typeName attrName : String)
  deriving DecidableEq

/-- `str(e)` for the exceptions above, as CPython renders them. -/
def PyExn.str : PyExn → String
  | .attributeError t a => "'" ++ t ++ "' object has no attribute '" ++ a ++ "'"

/-- Python `v.get(key, default)`: dict lookup with a default, raising
`AttributeError` when the receiver is not a dict. -/
def pyGet (v : JVal) (key : String) (dflt : JVal) : Except PyExn JVal :=
  match v with
  | .obj kvs => .ok ((jlookup kvs key).getD dflt)
  | _ => .error (.attributeError v.typeName "get")

/-- Numeric value of a digit list (most significant first). -/
def digitsVal (ds : List Char) : ℕ :=
  ds.foldl (fun a c => 10 * a + (c.toNat - 48)) 0

/-- Exponent part after `e`/`E`: optional sign then digits. -/
def parseExponent (cs : List Char) : Option ℤ :=
  match cs with
  | [] => none
  | c :: rest =>
    let p : Bool × List Char :=
      if c = '+' then (false, rest)
      else if c = '-' then (true, rest)
      else (false, c :: rest)
    if p.2 ≠ [] ∧ p.2.all Char.isDigit then
      some (if p.1 then -(digitsVal p.2 : ℤ) else (digitsVal p.2 : ℤ))
    else none

/-- Unsigned mantissa: `D+ [. D*]` or `. D+`; returns the value and the
unconsumed remainder. -/
def parseMantissa (cs : List Char) : Option (ℚ × List Char) :=
  let intPart := cs.takeWhile Char.isDigit
  let rest1 := cs.dropWhile Char.isDigit
  match rest1 with
  | '.' :: rest2 =>
    let fracPart := rest2.takeWhile Char.isDigit
    let rest3 := rest2.dropWhile Char.isDigit
    if intPart.isEmpty ∧ fracPart.isEmpty then none
    else some ((digitsVal intPart : ℚ) + (digitsVal fracPart : ℚ) / (10 ^ fracPart.length), rest3)
  | _ => if intPart.isEmpty then none else some ((digitsVal intPart : ℚ), rest1)

/-- Python `float(s)` on a string: surrounding whitespace, an optional
sign, a decimal mantissa and an optional exponent.  The IEEE literals
`inf`/`nan` (and digit-group underscores) are outside the rational
embedding and are treated as failures; no claim involves them. -/
def pyFloatOfString? (s : String) : Option ℚ :=
  let cs := ((s.toList.dropWhile Char.isWhitespace).reverse.dropWhile Char.isWhitespace).reverse
  let sg : ℚ × List Char :=
    match cs with
    | '+' :: rest => (1, rest)
    | '-' :: rest => (-1, rest)
    | _ => (1, cs)
  match parseMantissa sg.2 with
  | none => none
  | some (m, rest) =>
    match rest with
    | [] => some (sg.1 * m)
    | 'e' :: ecs => (parseExponent ecs).map (fun e => sg.1 * m * (10 : ℚ) ^ e)
    | 'E' :: ecs => (parseExponent ecs).map (fun e => sg.1 * m * (10 : ℚ) ^ e)
    | _ => none

/-- Python `float(x)`: `none` stands for the `ValueError` or `TypeError`
that the source catches in the same `except` clause. -/
def pyFloat? : JVal → Option ℚ
  | .num q => some q
  | .bool b => some (if b then 1 else 0)
  | .str s => pyFloatOfString? s
  | .null => none
  | .arr _ => none
  | .obj _ => none

/-- One reason string of the response, carrying the interpolated number:
`weightR w` is "Weight (<w>) is >= 5000 grams", `lengthR l` is
"Length (<l>) is > 60 inches", `widthR w` is "Width (<w>) is > 60
inches", `heightR h` is "Height (<h>) is > 60 inches", `totalR t` is
"Total dimensions (<t>) is > 150 inches", and `meetsReq` is the literal
string "Package meets all size and weight requirements". -/
inductive Reason where
  | weightR (w : ℚ)
  | lengthR (l : ℚ)
  | widthR (w : ℚ)
  | heightR (h : ℚ)
  | totalR (t : ℚ)
  | meetsReq
  deriving DecidableEq

/-- The successful response record built at the end of the `try` block. -/
structure SuccessOut where
  oversized : Bool
  length : ℚ
  width : ℚ
  height : ℚ
  weight : ℚ
  total_dimensions : ℚ
  reasoning : List Reason
  deriving DecidableEq

/-- The error message of a failure response. -/
inductive ErrMsg where
  | invalidInput
  | invalidJson
  | processing (details : String)
  deriving DecidableEq

/-- The exact error strings of the source. -/
def ErrMsg.render : ErrMsg → String
  | .invalidInput => "Invalid input: All dimensions and weight must be numeric values."
  | .invalidJson => "Invalid JSON format in context"
  | .processing d => "Error processing package check: " ++ d

/-- The value returned by one call: exactly one of a success record or
an error payload (`oversized` flag and message). -/
inductive Output where
  | result (r : SuccessOut)
  | error (oversized : Bool) (msg : ErrMsg)
  deriving DecidableEq

/-- Whether the output is a success record. -/
def Output.isResult : Output → Bool
  | .result _ => true
  | .error _ _ => false

/-- A value of the serialized response object. -/
inductive OutVal where
  | bool (b : Bool)
  | num (q : ℚ)
  | str (s : String)
  | reasonArr (rs : List Reason)
  deriving DecidableEq

/-- The key/value pairs of the dict passed to `json.dumps`, in source
order. -/
def Output.fields : Output → List (String × OutVal)
  | .result r =>
    [("oversized", .bool r.oversized), ("length", .num r.length), ("width", .num r.width),
     ("height", .num r.height), ("weight", .num r.weight),
     ("total_dimensions", .num r.total_dimensions), ("reasoning", .reasonArr r.reasoning)]
  | .error o m => [("oversized", .bool o), ("error", .str m.render)]

/-- One logging call: `logging.info(f"Package check result: {result}")`
on success, `logging.error(f"Error checking package: {str(e)}")` in the
generic exception handler. -/
inductive LogEvent where
  | info (result : SuccessOut)
  | err (details : String)
  deriving DecidableEq

/-- The rule-evaluation block of the source (lines 80 to 116): each `if`
sets the flag and appends its reason; the response record echoes the
coerced inputs, the total, and either the accumulated reasons or the
default message. -/
def evaluateRules (length width height weight : ℚ) : SuccessOut :=
  let reasons : List Reason := []
  let is_oversized := false
  let (is_oversized, reasons) :=
    if weight ≥ 5000 then (true, reasons ++ [Reason.weightR weight])
    else (is_oversized, reasons)
  let (is_oversized, reasons) :=
    if length > 60 then (true, reasons ++ [Reason.lengthR length])
    else (is_oversized, reasons)
  let (is_oversized, reasons) :=
    if width > 60 then (true, reasons ++ [Reason.widthR width])
    else (is_oversized, reasons)
  let (is_oversized, reasons) :=
    if height > 60 then (true, reasons ++ [Reason.heightR height])
    else (is_oversized, reasons)
  let total_dimensions := length + width + height
  let (is_oversized, reasons) :=
    if total_dimensions > 150 then (true, reasons ++ [Reason.totalR total_dimensions])
    else (is_oversized, reasons)
  { oversized := is_oversized, length := length, width := width, height := height,
    weight := weight, total_dimensions := total_dimensions,
    reasoning := if is_oversized then reasons else [Reason.meetsReq] }

/-- The whole function body with the logging sink made explicit.
`context` is the outcome of `json.loads(context)`: a `JSONDecodeError`
is handled by the dedicated clause, an `AttributeError` from `.get` by
the generic `except Exception` clause (which logs), a coercion failure
by the inner `except (ValueError, TypeError)` clause. -/
def check_package_oversized_run (context : Except String JVal) (log : List LogEvent) :
    Output × List LogEvent :=
  match context with
  | .error _ => (.error false .invalidJson, log)
  | .ok content =>
    match pyGet content "arguments" (.obj []) with
    | .error e => (.error false (.processing e.str), log ++ [.err e.str])
    | .ok args =>
      match pyGet args "length" (.num 0) with
      | .error e => (.error false (.processing e.str), log ++ [.err e.str])
      | .ok lengthRaw =>
        match pyGet args "width" (.num 0) with
        | .error e => (.error false (.processing e.str), log ++ [.err e.str])
        | .ok widthRaw =>
          match pyGet args "height" (.num 0) with
          | .error e => (.error false (.processing e.str), log ++ [.err e.str])
          | .ok heightRaw =>
            match pyGet args "weight" (.num 0) with
            | .error e => (.error false (.processing e.str), log ++ [.err e.str])
            | .ok weightRaw =>
              match pyFloat? lengthRaw with
              | none => (.error false .invalidInput, log)
              | some length =>
                match pyFloat? widthRaw with
                | none => (.error false .invalidInput, log)
                | some width =>
                  match pyFloat? heightRaw with
                  | none => (.error false .invalidInput, log)
                  | some height =>
                    match pyFloat? weightRaw with
                    | none => (.error false .invalidInput, log)
                    | some weight =>
                      let result := evaluateRules length width height weight
                      (.result result, log ++ [.info result])

/-- The returned value of one call (logging discarded). -/
def check_package_oversized (context : Except String JVal) : Output :=
  (check_package_oversized_run context []).1

/-- The four coerced fields of an input, when the extraction and the
coercions all succeed, in source order length, width, height, weight. -/
def coercedFields (context : Except String JVal) : Option (ℚ × ℚ × ℚ × ℚ) :=
  match context with
  | .error _ => none
  | .ok content =>
    match pyGet content "arguments" (.obj []) with
    | .error _ => none
    | .ok args =>
      match pyGet args "length" (.num 0) with
      | .error _ => none
      | .ok lengthRaw =>
        match pyGet args "width" (.num 0) with
        | .error _ => none
        | .ok widthRaw =>
          match pyGet args "height" (.num 0) with
          | .error _ => none
          | .ok heightRaw =>
            match pyGet args "weight" (.num 0) with
            | .error _ => none
            | .ok weightRaw =>
              match pyFloat? lengthRaw with
              | none => none
              | some length =>
                match pyFloat? widthRaw with
                | none => none
                | some width =>
                  match pyFloat? heightRaw with
                  | none => none
                  | some height =>
                    match pyFloat? weightRaw with
                    | none => none
                    | some weight => some (length, width, height, weight)

/-- The reasons of exactly the triggered rules, in the fixed source
order: weight, length, width, height, total dimensions. -/
def triggeredReasons (length width height weight : ℚ) : List Reason :=
  (if weight ≥ 5000 then [Reason.weightR weight] else []) ++
  (if length > 60 then [Reason.lengthR length] else []) ++
  (if width > 60 then [Reason.widthR width] else []) ++
  (if height > 60 then [Reason.heightR height] else []) ++
  (if length + width + height > 150 then [Reason.totalR (length + width + height)] else [])

/-! Structural lemmas about the evaluator. -/

/-- The rule block computes exactly the triggered reasons in rule order,
the flag records whether any rule triggered, and the inputs and their
total are echoed back. -/
theorem evaluateRules_spec (l w h g : ℚ) :
    evaluateRules l w h g =
      { oversized := decide (triggeredReasons l w h g ≠ []),
        length := l, width := w, height := h, weight := g,
        total_dimensions := l + w + h,
        reasoning := if triggeredReasons l w h g = [] then [Reason.meetsReq]
                     else triggeredReasons l w h g } := by
  unfold evaluateRules triggeredReasons
  split_ifs <;> simp_all <;> split_ifs <;> simp_all <;> linarith

/-- A weight reason appears among the triggered reasons exactly when the
weight rule fired on that weight. -/
theorem weightR_mem_triggered (x l w h g : ℚ) :
    Reason.weightR x ∈ triggeredReasons l w h g ↔ x = g ∧ 5000 ≤ g := by
  unfold triggeredReasons
  split_ifs <;> simp_all

/-- A length reason appears among the triggered reasons exactly when the
length rule fired on that length. -/
theorem lengthR_mem_triggered (x l w h g : ℚ) :
    Reason.lengthR x ∈ triggeredReasons l w h g ↔ x = l ∧ 60 < l := by
  unfold triggeredReasons
  split_ifs <;> simp_all

/-- A width reason appears among the triggered reasons exactly when the
width rule fired on that width. -/
theorem widthR_mem_triggered (x l w h g : ℚ) :
    Reason.widthR x ∈ triggeredReasons l w h g ↔ x = w ∧ 60 < w := by
  unfold triggeredReasons
  split_ifs <;> simp_all

/-- A height reason appears among the triggered reasons exactly when the
height rule fired on that height. -/
theorem heightR_mem_triggered (x l w h g : ℚ) :
    Reason.heightR x ∈ triggeredReasons l w h g ↔ x = h ∧ 60 < h := by
  unfold triggeredReasons
  split_ifs <;> simp_all

/-- A total-dimensions reason appears among the triggered reasons
exactly when the total rule fired on the dimension sum. -/
theorem totalR_mem_triggered (x l w h g : ℚ) :
    Reason.totalR x ∈ triggeredReasons l w h g ↔ x = l + w + h ∧ 150 < l + w + h := by
  unfold triggeredReasons
  split_ifs <;> simp_all

/-- The default message is never among the triggered reasons. -/
theorem meetsReq_not_mem_triggered (l w h g : ℚ) :
    Reason.meetsReq ∉ triggeredReasons l w h g := by
  unfold triggeredReasons
  split_ifs <;> simp_all

/-- Some rule triggers exactly when some threshold is crossed. -/
theorem triggeredReasons_ne_nil (l w h g : ℚ) :
    triggeredReasons l w h g ≠ [] ↔
      5000 ≤ g ∨ 60 < l ∨ 60 < w ∨ 60 < h ∨ 150 < l + w + h := by
  unfold triggeredReasons
  split_ifs <;> simp_all

/-- The returned value never depends on the state of the logging sink. -/
theorem run_fst_log_free (context : Except String JVal) (log1 log2 : List LogEvent) :
    (check_package_oversized_run context log1).1 = (check_package_oversized_run context log2).1 := by
  unfold check_package_oversized_run
  repeat' split
  all_goals simp_all

/-- When extraction and coercion succeed, the call returns the success
record built by the rule block on the coerced fields. -/
theorem check_of_coerced (context : Except String JVal) (l w h g : ℚ)
    (hc : coercedFields context = some (l, w, h, g)) :
    check_package_oversized context = .result (evaluateRules l w h g) := by
  unfold check_package_oversized check_package_oversized_run
  unfold coercedFields at hc
  repeat' split at hc
  all_goals simp_all

/-- Every success record returned by a call was built by the rule block
on the coerced fields of the input. -/
theorem coerced_of_check_result (context : Except String JVal) (r : SuccessOut)
    (hr : check_package_oversized context = .result r) :
    ∃ l w h g, coercedFields context = some (l, w, h, g) ∧ r = evaluateRules l w h g := by
  unfold check_package_oversized check_package_oversized_run at hr
  unfold coercedFields
  repeat' split at hr
  all_goals simp_all
  all_goals exact ⟨_, _, _, _, ⟨rfl, rfl, rfl, rfl⟩, hr.symm⟩

/-- Every error payload returned by a call carries `oversized = false`. -/
theorem run_error_oversized_false (context : Except String JVal) (log : List LogEvent)
    (b : Bool) (m : ErrMsg) (he : (check_package_oversized_run context log).1 = .error b m) :
    b = false := by
  unfold check_package_oversized_run at he
  repeat' split at he
  all_goals simp_all

/-- When extraction succeeds but some field fails coercion, the call
returns the invalid-input error. -/
theorem invalidInput_of_coerce_fail (content args lengthRaw widthRaw heightRaw weightRaw : JVal)
    (hA : pyGet content "arguments" (.obj []) = .ok args)
    (hL : pyGet args "length" (.num 0) = .ok lengthRaw)
    (hW : pyGet args "width" (.num 0) = .ok widthRaw)
    (hH : pyGet args "height" (.num 0) = .ok heightRaw)
    (hG : pyGet args "weight" (.num 0) = .ok weightRaw)
    (hfail : pyFloat? lengthRaw = none ∨ pyFloat? widthRaw = none ∨
             pyFloat? heightRaw = none ∨ pyFloat? weightRaw = none) :
    check_package_oversized (.ok content) = .error false .invalidInput := by
  unfold check_package_oversized check_package_oversized_run
  simp only [hA, hL, hW, hH, hG]
  rcases hfail with hf | hf | hf | hf <;>
    cases h1 : pyFloat? lengthRaw <;>
    cases h2 : pyFloat? widthRaw <;>
    cases h3 : pyFloat? heightRaw <;>
    cases h4 : pyFloat? weightRaw <;>
    simp_all

/-- The reasoning of a success record: the triggered reasons, or the
default message when none triggered. -/
theorem reasoning_eq (l w h g : ℚ) :
    (evaluateRules l w h g).reasoning =
      if triggeredReasons l w h g = [] then [Reason.meetsReq]
      else triggeredReasons l w h g := by
  rw [evaluateRules_spec]

/-- The flag of a success record records whether any rule triggered. -/
theorem oversized_eq (l w h g : ℚ) :
    (evaluateRules l w h g).oversized = decide (triggeredReasons l w h g ≠ []) := by
  rw [evaluateRules_spec]

/-- The echoed fields and total of a success record. -/
theorem echoed_fields_eq (l w h g : ℚ) :
    (evaluateRules l w h g).length = l ∧ (evaluateRules l w h g).width = w ∧
    (evaluateRules l w h g).height = h ∧ (evaluateRules l w h g).weight = g ∧
    (evaluateRules l w h g).total_dimensions = l + w + h := by
  rw [evaluateRules_spec]
  exact ⟨rfl, rfl, rfl, rfl, rfl⟩

/-- A triggered reason is reported. -/
theorem mem_reasoning_of_mem {x : Reason} {l w h g : ℚ}
    (hx : x ∈ triggeredReasons l w h g) : x ∈ (evaluateRules l w h g).reasoning := by
  rw [reasoning_eq, if_neg (List.ne_nil_of_mem hx)]
  exact hx

/-- Any triggered reason makes the flag true. -/
theorem oversized_true_of_mem {x : Reason} {l w h g : ℚ}
    (hx : x ∈ triggeredReasons l w h g) : (evaluateRules l w h g).oversized = true := by
  rw [oversized_eq]
  simp [List.ne_nil_of_mem hx]

/-- A reason that did not trigger, other than the default message, is
not reported. -/
theorem not_mem_reasoning {x : Reason} {l w h g : ℚ}
    (hx : x ∉ triggeredReasons l w h g) (hm : x ≠ Reason.meetsReq) :
    x ∉ (evaluateRules l w h g).reasoning := by
  rw [reasoning_eq]
  split_ifs with he
  · simpa using hm
  · exact hx

/-! Claims. -/

/-- C1: for every input whose four fields coerce to numbers, the call
succeeds with the record built by the rule block; its oversized flag is
true exactly when at least one rule triggered, and whenever at least one
rule triggered the reasoning sequence is exactly the reasons of the
triggered rules in the fixed order weight, length, width, height,
total dimensions. -/
theorem C1_rule_order_and_flag (context : Except String JVal) (l w h g : ℚ)
    (hc : coercedFields context = some (l, w, h, g)) :
    check_package_oversized context = .result (evaluateRules l w h g) ∧
    ((evaluateRules l w h g).oversized = true ↔ triggeredReasons l w h g ≠ []) ∧
    (triggeredReasons l w h g ≠ [] →
      (evaluateRules l w h g).reasoning = triggeredReasons l w h g) := by
  refine ⟨check_of_coerced context l w h g hc, ?_, ?_⟩
  · rw [oversized_eq]
    simp
  · intro hne
    rw [reasoning_eq, if_neg hne]

/-- Witness for C1: weight 6000 and length 70 trigger the weight and
length rules simultaneously, reported in that order, and the flag is
true. -/
theorem C1_rule_order_and_flag_witness :
    check_package_oversized
        (.ok (.obj [("arguments", .obj [("weight", .num 6000), ("length", .num 70)])])) =
      .result (evaluateRules 70 0 0 6000) ∧
    (evaluateRules 70 0 0 6000).reasoning = [Reason.weightR 6000, Reason.lengthR 70] ∧
    (evaluateRules 70 0 0 6000).oversized = true := by
  have htr : triggeredReasons 70 0 0 6000 = [Reason.weightR 6000, Reason.lengthR 70] := by
    with_unfolding_all rfl
  have hmain := C1_rule_order_and_flag
    (.ok (.obj [("arguments", .obj [("weight", .num 6000), ("length", .num 70)])]))
    70 0 0 6000 (by with_unfolding_all rfl)
  refine ⟨hmain.1, ?_, hmain.2.1.mpr (by rw [htr]; simp)⟩
  rw [hmain.2.2 (by rw [htr]; simp)]
  exact htr

/-- C2: the weight boundary is inclusive: on a coercible input, a
coerced weight exactly 5000 adds the weight reason and makes the flag
true, while a coerced weight strictly below 5000 leaves every weight
reason out of the reported reasoning. -/
theorem C2_weight_boundary_inclusive (context : Except String JVal) (l w h g : ℚ)
    (hc : coercedFields context = some (l, w, h, g)) :
    check_package_oversized context = .result (evaluateRules l w h g) ∧
    (g = 5000 →
      Reason.weightR g ∈ (evaluateRules l w h g).reasoning ∧
      (evaluateRules l w h g).oversized = true) ∧
    (g < 5000 → ∀ x : ℚ, Reason.weightR x ∉ (evaluateRules l w h g).reasoning) := by
  refine ⟨check_of_coerced context l w h g hc, ?_, ?_⟩
  · intro hg
    have hmem : Reason.weightR g ∈ triggeredReasons l w h g :=
      (weightR_mem_triggered g l w h g).mpr ⟨rfl, by rw [hg]⟩
    exact ⟨mem_reasoning_of_mem hmem, oversized_true_of_mem hmem⟩
  · intro hg x
    refine not_mem_reasoning ?_ (by simp)
    rw [weightR_mem_triggered]
    rintro ⟨rfl, hge⟩
    exact absurd hge (not_le.mpr hg)

/-- Witness for C2: weight exactly 5000 triggers the weight rule; weight
4999.999 does not. -/
theorem C2_weight_boundary_inclusive_witness :
    Reason.weightR 5000 ∈ (evaluateRules 0 0 0 5000).reasoning ∧
    (evaluateRules 0 0 0 5000).oversized = true ∧
    Reason.weightR 4999.999 ∉ (evaluateRules 0 0 0 4999.999).reasoning := by
  have h1 := C2_weight_boundary_inclusive
    (.ok (.obj [("arguments", .obj [("weight", .num 5000)])]))
    0 0 0 5000 (by with_unfolding_all rfl)
  have h2 := C2_weight_boundary_inclusive
    (.ok (.obj [("arguments", .obj [("weight", .num 4999.999)])]))
    0 0 0 4999.999 (by with_unfolding_all rfl)
  obtain ⟨hm, ho⟩ := h1.2.1 rfl
  exact ⟨hm, ho, h2.2.2 (by norm_num) 4999.999⟩

/-- C3: the dimension and total boundaries are exclusive: on a coercible
input, a dimension exactly 60 adds no reason for that dimension while a
dimension strictly above 60 adds one and makes the flag true; a
dimension sum exactly 150 adds no total reason while a sum strictly
above 150 adds one and makes the flag true. -/
theorem C3_dimension_boundaries_exclusive (context : Except String JVal) (l w h g : ℚ)
    (hc : coercedFields context = some (l, w, h, g)) :
    check_package_oversized context = .result (evaluateRules l w h g) ∧
    (l = 60 → ∀ x : ℚ, Reason.lengthR x ∉ (evaluateRules l w h g).reasoning) ∧
    (60 < l → Reason.lengthR l ∈ (evaluateRules l w h g).reasoning ∧
      (evaluateRules l w h g).oversized = true) ∧
    (w = 60 → ∀ x : ℚ, Reason.widthR x ∉ (evaluateRules l w h g).reasoning) ∧
    (60 < w → Reason.widthR w ∈ (evaluateRules l w h g).reasoning ∧
      (evaluateRules l w h g).oversized = true) ∧
    (h = 60 → ∀ x : ℚ, Reason.heightR x ∉ (evaluateRules l w h g).reasoning) ∧
    (60 < h → Reason.heightR h ∈ (evaluateRules l w h g).reasoning ∧
      (evaluateRules l w h g).oversized = true) ∧
    (l + w + h = 150 → ∀ x : ℚ, Reason.totalR x ∉ (evaluateRules l w h g).reasoning) ∧
    (150 < l + w + h → Reason.totalR (l + w + h) ∈ (evaluateRules l w h g).reasoning ∧
      (evaluateRules l w h g).oversized = true) := by
  refine ⟨check_of_coerced context l w h g hc, ?_, ?_, ?_, ?_, ?_, ?_, ?_, ?_⟩
  · intro hl x
    refine not_mem_reasoning ?_ (by simp)
    rw [lengthR_mem_triggered]
    rintro ⟨rfl, hgt⟩
    rw [hl] at hgt
    exact absurd hgt (lt_irrefl 60)
  · intro hl
    have hmem : Reason.lengthR l ∈ triggeredReasons l w h g :=
      (lengthR_mem_triggered l l w h g).mpr ⟨rfl, hl⟩
    exact ⟨mem_reasoning_of_mem hmem, oversized_true_of_mem hmem⟩
  · intro hw x
    refine not_mem_reasoning ?_ (by simp)
    rw [widthR_mem_triggered]
    rintro ⟨rfl, hgt⟩
    rw [hw] at hgt
    exact absurd hgt (lt_irrefl 60)
  · intro hw
    have hmem : Reason.widthR w ∈ triggeredReasons l w h g :=
      (widthR_mem_triggered w l w h g).mpr ⟨rfl, hw⟩
    exact ⟨mem_reasoning_of_mem hmem, oversized_true_of_mem hmem⟩
  · intro hh x
    refine not_mem_reasoning ?_ (by simp)
    rw [heightR_mem_triggered]
    rintro ⟨rfl, hgt⟩
    rw [hh] at hgt
    exact absurd hgt (lt_irrefl 60)
  · intro hh
    have hmem : Reason.heightR h ∈ triggeredReasons l w h g :=
      (heightR_mem_triggered h l w h g).mpr ⟨rfl, hh⟩
    exact ⟨mem_reasoning_of_mem hmem, oversized_true_of_mem hmem⟩
  · intro ht x
    refine not_mem_reasoning ?_ (by simp)
    rw [totalR_mem_triggered]
    rintro ⟨rfl, hgt⟩
    rw [ht] at hgt
    exact absurd hgt (lt_irrefl 150)
  · intro ht
    have hmem : Reason.totalR (l + w + h) ∈ triggeredReasons l w h g :=
      (totalR_mem_triggered (l + w + h) l w h g).mpr ⟨rfl, ht⟩
    exact ⟨mem_reasoning_of_mem hmem, oversized_true_of_mem hmem⟩

/-- Witness for C3: length exactly 60 adds no length reason while width
61 adds a width reason; a sum of exactly 150 adds no total reason while
a sum of 150.001 adds one. -/
theorem C3_dimension_boundaries_exclusive_witness :
    Reason.lengthR 60 ∉ (evaluateRules 60 61 0 0).reasoning ∧
    Reason.widthR 61 ∈ (evaluateRules 60 61 0 0).reasoning ∧
    (evaluateRules 60 61 0 0).oversized = true ∧
    Reason.totalR 150 ∉ (evaluateRules 50 50 50 0).reasoning ∧
    Reason.totalR (50 + 50 + 50.001) ∈ (evaluateRules 50 50 50.001 0).reasoning ∧
    (evaluateRules 50 50 50.001 0).oversized = true := by
  have h1 := C3_dimension_boundaries_exclusive
    (.ok (.obj [("arguments", .obj [("length", .num 60), ("width", .num 61)])]))
    60 61 0 0 (by with_unfolding_all rfl)
  have h2 := C3_dimension_boundaries_exclusive
    (.ok (.obj [("arguments", .obj [("length", .num 50), ("width", .num 50), ("height", .num 50)])]))
    50 50 50 0 (by with_unfolding_all rfl)
  have h3 := C3_dimension_boundaries_exclusive
    (.ok (.obj [("arguments",
      .obj [("length", .num 50), ("width", .num 50), ("height", .num 50.001)])]))
    50 50 50.001 0 (by with_unfolding_all rfl)
  obtain ⟨hwm, hwo⟩ := h1.2.2.2.2.1 (by norm_num)
  obtain ⟨htm, hto⟩ := h3.2.2.2.2.2.2.2.2 (by norm_num)
  exact ⟨h1.2.1 rfl 60, hwm, hwo, h2.2.2.2.2.2.2.2.1 (by norm_num) 150, htm, hto⟩

/-- C4: on a coercible input with every value below every threshold the
call returns a record with the flag false and the single default
message as reasoning; and the reasoning of every success record is
nonempty. -/
theorem C4_below_thresholds_default (context : Except String JVal) (l w h g : ℚ)
    (hc : coercedFields context = some (l, w, h, g)) :
    (g < 5000 → l ≤ 60 → w ≤ 60 → h ≤ 60 → l + w + h ≤ 150 →
      check_package_oversized context =
        .result { oversized := false, length := l, width := w, height := h, weight := g,
                  total_dimensions := l + w + h, reasoning := [Reason.meetsReq] }) ∧
    (∀ (context' : Except String JVal) (r : SuccessOut),
      check_package_oversized context' = .result r → r.reasoning ≠ []) := by
  constructor
  · intro h1 h2 h3 h4 h5
    have hnil : triggeredReasons l w h g = [] := by
      by_contra hne
      rcases (triggeredReasons_ne_nil l w h g).mp hne with ha | ha | ha | ha | ha
      · exact absurd ha (not_le.mpr h1)
      · exact absurd ha (not_lt.mpr h2)
      · exact absurd ha (not_lt.mpr h3)
      · exact absurd ha (not_lt.mpr h4)
      · exact absurd ha (not_lt.mpr h5)
    rw [check_of_coerced context l w h g hc, evaluateRules_spec]
    simp [hnil]
  · intro context' r hr
    rcases coerced_of_check_result context' r hr with ⟨l', w', h', g', _, rfl⟩
    rw [reasoning_eq]
    split_ifs with he
    · simp
    · exact he

/-- Witness for C4: all fields 10 yield the flag false and exactly the
default message; that reasoning is nonempty. -/
theorem C4_below_thresholds_default_witness :
    check_package_oversized
        (.ok (.obj [("arguments",
          .obj [("length", .num 10), ("width", .num 10), ("height", .num 10),
                ("weight", .num 10)])])) =
      .result { oversized := false, length := 10, width := 10, height := 10, weight := 10,
                total_dimensions := 10 + 10 + 10, reasoning := [Reason.meetsReq] } ∧
    ({ oversized := false, length := 10, width := 10, height := 10, weight := 10,
       total_dimensions := 10 + 10 + 10, reasoning := [Reason.meetsReq] : SuccessOut }).reasoning
      ≠ [] := by
  have hmain := C4_below_thresholds_default
    (.ok (.obj [("arguments",
      .obj [("length", .num 10), ("width", .num 10), ("height", .num 10),
            ("weight", .num 10)])]))
    10 10 10 10 (by with_unfolding_all rfl)
  have heq := hmain.1 (by norm_num) (by norm_num) (by norm_num) (by norm_num) (by norm_num)
  exact ⟨heq, hmain.2 _ _ heq⟩

/-- C5: when extraction succeeds but any one of the four fields fails
numeric coercion, the call returns the invalid-input error with the flag
false and exactly the specified message, whatever the other fields hold. -/
theorem C5_noncoercible_field_error
    (content args lengthRaw widthRaw heightRaw weightRaw : JVal)
    (hA : pyGet content "arguments" (.obj []) = .ok args)
    (hL : pyGet args "length" (.num 0) = .ok lengthRaw)
    (hW : pyGet args "width" (.num 0) = .ok widthRaw)
    (hH : pyGet args "height" (.num 0) = .ok heightRaw)
    (hG : pyGet args "weight" (.num 0) = .ok weightRaw)
    (hfail : pyFloat? lengthRaw = none ∨ pyFloat? widthRaw = none ∨
             pyFloat? heightRaw = none ∨ pyFloat? weightRaw = none) :
    check_package_oversized (.ok content) = .error false .invalidInput ∧
    ErrMsg.invalidInput.render =
      "Invalid input: All dimensions and weight must be numeric values." :=
  ⟨invalidInput_of_coerce_fail content args lengthRaw widthRaw heightRaw weightRaw
    hA hL hW hH hG hfail, rfl⟩

/-- Witness for C5: the non-numeric string "heavy" as weight yields the
invalid-input error although the length is a valid number. -/
theorem C5_noncoercible_field_error_witness :
    check_package_oversized
        (.ok (.obj [("arguments", .obj [("weight", .str "heavy"), ("length", .num 70)])])) =
      .error false .invalidInput ∧
    ErrMsg.invalidInput.render =
      "Invalid input: All dimensions and weight must be numeric values." :=
  C5_noncoercible_field_error
    (.obj [("arguments", .obj [("weight", .str "heavy"), ("length", .num 70)])])
    (.obj [("weight", .str "heavy"), ("length", .num 70)])
    (.num 70) (.num 0) (.num 0) (.str "heavy")
    (by with_unfolding_all rfl) (by with_unfolding_all rfl) (by with_unfolding_all rfl)
    (by with_unfolding_all rfl) (by with_unfolding_all rfl)
    (Or.inr (Or.inr (Or.inr (by with_unfolding_all rfl))))

/-- C6 counterexample: the empty JSON array is valid JSON whose
structure is not a record, yet the call returns the unexpected-failure
error, not the invalid-JSON error: the claim that every input not
parseable as a well-formed record yields the message "Invalid JSON
format in context" is false. -/
theorem C6_counterexample_nonrecord_json :
    check_package_oversized (.ok (.arr [])) ≠ .error false .invalidJson ∧
    check_package_oversized (.ok (.arr [])) =
      .error false (.processing "'list' object has no attribute 'get'") ∧
    ErrMsg.render (.processing "'list' object has no attribute 'get'") ≠
      "Invalid JSON format in context" := by
  refine ⟨?_, by with_unfolding_all rfl, by simp [ErrMsg.render]⟩
  have hv : check_package_oversized (.ok (.arr [])) =
      .error false (.processing "'list' object has no attribute 'get'") := by
    with_unfolding_all rfl
  rw [hv]
  simp

/-- C6 amended: only inputs on which JSON parsing itself fails produce
the invalid-JSON error; valid JSON whose top level is not a record, or
whose arguments field is present but not a map, produces the
unexpected-failure error carrying the attribute-error detail instead. -/
theorem C6_amended_parse_vs_structure :
    (∀ s : String, check_package_oversized (.error s) = .error false .invalidJson) ∧
    (∀ v : JVal, v.isObj = false →
      check_package_oversized (.ok v) =
        .error false (.processing (PyExn.attributeError v.typeName "get").str)) ∧
    (∀ (kvs : List (String × JVal)) (a : JVal), jlookup kvs "arguments" = some a →
      a.isObj = false →
      check_package_oversized (.ok (.obj kvs)) =
        .error false (.processing (PyExn.attributeError a.typeName "get").str)) ∧
    ErrMsg.invalidJson.render = "Invalid JSON format in context" := by
  refine ⟨fun s => rfl, ?_, ?_, rfl⟩
  · intro v hv
    cases v <;>
      simp_all [check_package_oversized, check_package_oversized_run, pyGet, JVal.isObj]
  · intro kvs a hlk hobj
    have hga : pyGet (.obj kvs) "arguments" (.obj []) = .ok a := by
      simp [pyGet, hlk]
    unfold check_package_oversized check_package_oversized_run
    simp only [hga]
    cases a <;> simp_all [pyGet, JVal.isObj]

/-- Witness for the amended C6: an unparseable body gives the
invalid-JSON error; the valid JSON array `[]` and a record whose
arguments field is the string "x" both give the unexpected-failure
error. -/
theorem C6_amended_parse_vs_structure_witness :
    check_package_oversized (.error "not json") = .error false .invalidJson ∧
    check_package_oversized (.ok (.arr [])) =
      .error false (.processing (PyExn.attributeError "list" "get").str) ∧
    check_package_oversized (.ok (.obj [("arguments", .str "x")])) =
      .error false (.processing (PyExn.attributeError "str" "get").str) := by
  have hmain := C6_amended_parse_vs_structure
  exact ⟨hmain.1 "not json", hmain.2.1 (.arr []) rfl,
    hmain.2.2.1 [("arguments", .str "x")] (.str "x") (by with_unfolding_all rfl) rfl⟩

/-- C7: on a coercible input the call succeeds and the reported
total_dimensions is exactly the sum of the three coerced dimensions;
a key missing from the arguments map is extracted as the number 0,
which coerces to 0. -/
theorem C7_total_is_sum_and_defaults (context : Except String JVal) (l w h g : ℚ)
    (hc : coercedFields context = some (l, w, h, g)) :
    check_package_oversized context = .result (evaluateRules l w h g) ∧
    (evaluateRules l w h g).total_dimensions = l + w + h ∧
    (∀ (kvs : List (String × JVal)) (key : String), jlookup kvs key = none →
      pyGet (.obj kvs) key (.num 0) = .ok (.num 0)) ∧
    pyFloat? (.num 0) = some 0 := by
  refine ⟨check_of_coerced context l w h g hc, (echoed_fields_eq l w h g).2.2.2.2, ?_, rfl⟩
  intro kvs key hk
  simp [pyGet, hk]

/-- Witness for C7: with an empty arguments map all four fields default
to 0 and the reported total is 0 + 0 + 0. -/
theorem C7_total_is_sum_and_defaults_witness :
    check_package_oversized (.ok (.obj [("arguments", .obj [])])) =
      .result (evaluateRules 0 0 0 0) ∧
    (evaluateRules 0 0 0 0).total_dimensions = 0 + 0 + 0 ∧
    pyGet (.obj []) "weight" (.num 0) = .ok (.num 0) := by
  have hmain := C7_total_is_sum_and_defaults (.ok (.obj [("arguments", .obj [])]))
    0 0 0 0 (by with_unfolding_all rfl)
  exact ⟨hmain.1, hmain.2.1, hmain.2.2.1 [] "weight" rfl⟩

/-- C8: every call produces exactly one of a success record or an error
payload; every error payload carries the flag false and serializes to
exactly the two fields oversized and error. -/
theorem C8_exactly_one_output (context : Except String JVal) (log : List LogEvent) :
    ((∃ r, (check_package_oversized_run context log).1 = .result r) ∨
     (∃ b m, (check_package_oversized_run context log).1 = .error b m)) ∧
    ¬((∃ r, (check_package_oversized_run context log).1 = .result r) ∧
      (∃ b m, (check_package_oversized_run context log).1 = .error b m)) ∧
    (∀ (b : Bool) (m : ErrMsg), (check_package_oversized_run context log).1 = .error b m →
      b = false ∧ ((check_package_oversized_run context log).1).fields =
        [("oversized", .bool false), ("error", .str m.render)]) := by
  refine ⟨?_, ?_, ?_⟩
  · cases ho : (check_package_oversized_run context log).1 with
    | result r => exact Or.inl ⟨r, rfl⟩
    | error b m => exact Or.inr ⟨b, m, rfl⟩
  · rintro ⟨⟨r, hr⟩, ⟨b, m, he⟩⟩
    rw [hr] at he
    exact Output.noConfusion he
  · intro b m he
    have hb : b = false := run_error_oversized_false context log b m he
    subst hb
    rw [he]
    exact ⟨rfl, rfl⟩

/-- Witness for C8: an unparseable body yields the error payload with
the flag false and exactly the fields oversized and error. -/
theorem C8_exactly_one_output_witness :
    (check_package_oversized_run (.error "not json") []).1 = .error false .invalidJson ∧
    ((check_package_oversized_run (.error "not json") []).1).fields =
      [("oversized", .bool false), ("error", .str "Invalid JSON format in context")] := by
  have hmain := C8_exactly_one_output (.error "not json") []
  have he : (check_package_oversized_run (.error "not json") []).1 =
      .error false .invalidJson := rfl
  obtain ⟨-, hf⟩ := hmain.2.2 false .invalidJson he
  exact ⟨he, hf⟩

/-- C9: a field present with the JSON value null fails coercion inside
the guarded clause, so the call returns the invalid-input error, not
the unexpected-failure error. -/
theorem C9_null_field_invalid_input (kvs akvs : List (String × JVal))
    (hA : jlookup kvs "arguments" = some (.obj akvs))
    (hnull : jlookup akvs "length" = some .null ∨ jlookup akvs "width" = some .null ∨
             jlookup akvs "height" = some .null ∨ jlookup akvs "weight" = some .null) :
    check_package_oversized (.ok (.obj kvs)) = .error false .invalidInput ∧
    ErrMsg.invalidInput.render =
      "Invalid input: All dimensions and weight must be numeric values." := by
  refine ⟨?_, rfl⟩
  apply invalidInput_of_coerce_fail (.obj kvs) (.obj akvs)
    ((jlookup akvs "length").getD (.num 0)) ((jlookup akvs "width").getD (.num 0))
    ((jlookup akvs "height").getD (.num 0)) ((jlookup akvs "weight").getD (.num 0))
  · simp [pyGet, hA]
  · rfl
  · rfl
  · rfl
  · rfl
  · rcases hnull with hn | hn | hn | hn
    · exact Or.inl (by rw [hn]; rfl)
    · exact Or.inr (Or.inl (by rw [hn]; rfl))
    · exact Or.inr (Or.inr (Or.inl (by rw [hn]; rfl)))
    · exact Or.inr (Or.inr (Or.inr (by rw [hn]; rfl)))

/-- Witness for C9: weight null with a valid length yields the
invalid-input error. -/
theorem C9_null_field_invalid_input_witness :
    check_package_oversized
        (.ok (.obj [("arguments", .obj [("weight", .null), ("length", .num 70)])])) =
      .error false .invalidInput ∧
    ErrMsg.invalidInput.render =
      "Invalid input: All dimensions and weight must be numeric values." :=
  C9_null_field_invalid_input [("arguments", .obj [("weight", .null), ("length", .num 70)])]
    [("weight", .null), ("length", .num 70)]
    (by with_unfolding_all rfl)
    (Or.inr (Or.inr (Or.inr (by with_unfolding_all rfl))))

/-- C10: the evaluator is deterministic: the returned value is a
function of the parsed input alone and never depends on the state of
the logging sink. -/
theorem C10_deterministic_log_independent (context : Except String JVal)
    (log1 log2 : List LogEvent) :
    (check_package_oversized_run context log1).1 = (check_package_oversized_run context log2).1 ∧
    (check_package_oversized_run context log1).1 = check_package_oversized context :=
  ⟨run_fst_log_free context log1 log2, run_fst_log_free context log1 []⟩

end PackageCheck
